import Mathlib

/-!
Verification of the Kairo Relationship Intelligence subsystem.

The frontend (Next.js dashboard and API client) is embedded directly from
the TypeScript sources; the backend graph engine (graph store, ingest,
decay, tone-shift, attention aggregation) is modelled from the
specification, which describes its contracts.
-/

namespace Kairo

/-! ## Frontend: relationship graph page (RelationshipsPage) -/

/-- Embeds `sentimentColor` from the relationships page: red below -0.2,
green above 0.2, neutral gray otherwise.  Sentiment is modelled as a
rational number. -/
def sentimentColor (s : ℚ) : String :=
  if s < -(1/5) then "#ef4444"
  else if (1/5 : ℚ) < s then "#22c55e"
  else "#9ca3af"

/-- Models the JavaScript `x || d` idiom on numbers: `0` (the only falsy
rational) is replaced by the default `d`. -/
def jsOrQ (x d : ℚ) : ℚ := if x = 0 then d else x

/-- Embeds the edge stroke-width attribute of the D3 link rendering:
`Math.max(1, Math.min(6, (d.interaction_count || 1) / 5))`. -/
def strokeWidth (n : ℚ) : ℚ := max 1 (min 6 (jsOrQ n 1 / 5))

theorem strokeWidth_eq_clamp (n : ℚ) : strokeWidth n = max 1 (min 6 (n / 5)) := by
  unfold strokeWidth jsOrQ
  split
  · subst n
    norm_num
  · rfl

end Kairo

/-- C8: sentimentColor returns exactly one of three colors — red iff the
sentiment is strictly below -0.2, green iff strictly above 0.2, and
neutral gray otherwise; both boundary values -0.2 and 0.2 render gray. -/
theorem sentimentColor_three_buckets (s : ℚ) :
    (Kairo.sentimentColor s = "#ef4444" ∨ Kairo.sentimentColor s = "#22c55e" ∨
      Kairo.sentimentColor s = "#9ca3af") ∧
    (Kairo.sentimentColor s = "#ef4444" ↔ s < -(1/5)) ∧
    (Kairo.sentimentColor s = "#22c55e" ↔ (1/5 : ℚ) < s) ∧
    (Kairo.sentimentColor s = "#9ca3af" ↔ (-(1/5) ≤ s ∧ s ≤ 1/5)) ∧
    Kairo.sentimentColor (-(1/5)) = "#9ca3af" ∧
    Kairo.sentimentColor ((1/5 : ℚ)) = "#9ca3af" := by
  unfold Kairo.sentimentColor
  refine ⟨?_, ?_, ?_, ?_, by norm_num, by norm_num⟩ <;>
    split_ifs with h1 h2 <;> simp_all <;> try constructor
  all_goals first
    | exact le_of_not_lt h1
    | exact le_of_not_lt h2
    | linarith

/-- C9: the rendered edge stroke width always lies in [1, 6] and is
monotonically non-decreasing in the interaction count. -/
theorem strokeWidth_bounded_monotone (n : ℚ) :
    (1 ≤ Kairo.strokeWidth n ∧ Kairo.strokeWidth n ≤ 6) ∧
    (∀ m : ℚ, n ≤ m → Kairo.strokeWidth n ≤ Kairo.strokeWidth m) := by
  constructor
  · rw [Kairo.strokeWidth_eq_clamp]
    refine ⟨le_max_left _ _, max_le (by norm_num) ?_⟩
    exact le_trans (min_le_left _ _) (by norm_num)
  · intro m hm
    rw [Kairo.strokeWidth_eq_clamp, Kairo.strokeWidth_eq_clamp]
    have hdiv : n / 5 ≤ m / 5 := by linarith
    exact max_le_max le_rfl (min_le_min le_rfl hdiv)

/-- Witness for C9: evaluates the stroke-width bounds and monotonicity at
the concrete interaction counts 10 and 20. -/
theorem strokeWidth_bounded_monotone_witness :
    ((1 ≤ Kairo.strokeWidth 10 ∧ Kairo.strokeWidth 10 ≤ 6) ∧
      Kairo.strokeWidth 10 ≤ Kairo.strokeWidth 20) ∧
    Kairo.strokeWidth 10 = 2 :=
  ⟨⟨(strokeWidth_bounded_monotone 10).1,
    (strokeWidth_bounded_monotone 10).2 20 (by norm_num)⟩, by
      rw [Kairo.strokeWidth_eq_clamp]; norm_num⟩

namespace Kairo

/-! ## Frontend: shared API request helper (lib/api.ts) -/

/-- Models the JSON object a response body parses to, restricted to the one
field the request helper inspects. -/
structure JsonBody where
  detail : Option String
deriving DecidableEq

/-- Models an HTTP response as observed by the request helper: the `ok`
flag, the numeric status, and the result of attempting to parse the body
as JSON (`none` when the body is unparseable). -/
structure HttpResp where
  ok : Bool
  status : Nat
  body : Option JsonBody
deriving DecidableEq

/-- Possible outcomes of the request helper: the promise resolves with the
parsed body, rejects with a constructed `Error` message, or rejects with
the parse failure propagated from `res.json()` on an ok response. -/
inductive ReqOutcome
  | resolved (b : JsonBody)
  | thrown (msg : String)
  | bodyParseRejected
deriving DecidableEq

/-- Tests whether an outcome is a resolution. -/
def ReqOutcome.isResolved : ReqOutcome → Bool
  | .resolved _ => true
  | _ => false

/-- Embeds the `request` helper of the API client: on a non-ok response it
throws an `Error` whose message is `err.detail || "HTTP <status>"`, where
`err` is the parsed body or the fallback object with detail
"Request failed"; on an ok response it returns `res.json()`, which rejects
when the body is unparseable.  JavaScript string truthiness makes an empty
`detail` fall through to the HTTP-status message. -/
def request (r : HttpResp) : ReqOutcome :=
  if r.ok then
    match r.body with
    | some b => .resolved b
    | none => .bodyParseRejected
  else
    let d : Option String :=
      match r.body with
      | none => some "Request failed"
      | some b => b.detail
    .thrown
      (match d with
       | some s => if s = "" then "HTTP " ++ toString r.status else s
       | none => "HTTP " ++ toString r.status)

/-! ## Frontend: relationships API client surface (lib/api.ts) -/

/-- One endpoint wrapper of the API client: HTTP method and path. -/
structure ApiEndpoint where
  method : String
  path : String
deriving DecidableEq

/-- Embeds the `relationships` export of the API client: the five
endpoint wrappers it defines, each a GET (no method option is passed to
`request`, so fetch defaults to GET). -/
def relationshipsClient : List (String × ApiEndpoint) :=
  [("graph", ⟨"GET", "/api/relationships/graph"⟩),
   ("toneShifts", ⟨"GET", "/api/relationships/tone-shifts"⟩),
   ("neglected", ⟨"GET", "/api/relationships/neglected"⟩),
   ("keyContacts", ⟨"GET", "/api/relationships/key-contacts"⟩),
   ("clusters", ⟨"GET", "/api/relationships/clusters"⟩)]

end Kairo

/-- C10 counterexample: an ok response with an unparseable body does not
resolve — `res.json()` rejects — so the helper does not resolve exactly
when `res.ok` holds, refuting the claimed equivalence. -/
theorem request_ok_unparseable_not_resolved :
    (Kairo.HttpResp.mk true 200 none).ok = true ∧
    (Kairo.request (Kairo.HttpResp.mk true 200 none)).isResolved = false := by
  decide

/-- C10 amended: the helper resolves with the parsed JSON body exactly when
the response is ok and the body parses; every non-ok response throws an
Error — never resolving — whose message is the parsed detail when truthy,
"Request failed" when the body is unparseable, and "HTTP <status>" when
the parsed body lacks a detail; an ok response with an unparseable body
propagates the json() rejection. -/
theorem request_raises_iff_not_ok (r : Kairo.HttpResp) :
    (∀ b, Kairo.request r = .resolved b ↔ (r.ok = true ∧ r.body = some b)) ∧
    (r.ok = false → (Kairo.request r).isResolved = false) ∧
    (r.ok = false → r.body = none → Kairo.request r = .thrown "Request failed") ∧
    (∀ d, r.ok = false → r.body = some ⟨some d⟩ → d ≠ "" →
      Kairo.request r = .thrown d) ∧
    (r.ok = false → r.body = some ⟨none⟩ →
      Kairo.request r = .thrown ("HTTP " ++ toString r.status)) ∧
    (r.ok = true → r.body = none → Kairo.request r = .bodyParseRejected) := by
  obtain ⟨ok, status, body⟩ := r
  refine ⟨?_, ?_, ?_, ?_, ?_, ?_⟩
  · intro b
    cases ok <;> cases body <;>
      simp [Kairo.request]
  · intro hok
    cases hok
    cases body with
    | none => simp [Kairo.request, Kairo.ReqOutcome.isResolved]
    | some b =>
        obtain ⟨d⟩ := b
        cases d <;> simp [Kairo.request, Kairo.ReqOutcome.isResolved]
  · intro hok hbody
    cases hok; cases hbody
    simp [Kairo.request]
  · intro d hok hbody hne
    cases hok; cases hbody
    simp [Kairo.request, if_neg hne]
  · intro hok hbody
    cases hok; cases hbody
    simp [Kairo.request]
  · intro hok hbody
    cases hok; cases hbody
    simp [Kairo.request]

/-- Witness for C10 amended: evaluates the helper on a concrete non-ok
response whose body parses with detail "quota exceeded". -/
theorem request_raises_iff_not_ok_witness :
    Kairo.request (Kairo.HttpResp.mk false 429 (some ⟨some "quota exceeded"⟩)) =
      .thrown "quota exceeded" :=
  (request_raises_iff_not_ok
      (Kairo.HttpResp.mk false 429 (some ⟨some "quota exceeded"⟩))).2.2.2.1
    "quota exceeded" rfl rfl (by decide)

/-- C6 counterexample: the `relationships` client exposes no member named
"attention", no contact-detail read, and no PATCH mutation — every wrapper
is one of the five GET reads — refuting the claim that the interface
consumed by the UI provides `attention()`, `contact_detail(id)` and
`PATCH contact(id, ...)`. -/
theorem relationships_client_lacks_attention :
    Kairo.relationshipsClient.all (fun e => e.2.method = "GET") = true ∧
    ("attention" ∈ Kairo.relationshipsClient.map Prod.fst) = False ∧
    (("/api/relationships/attention" ∈
        Kairo.relationshipsClient.map (fun e => e.2.path)) = False) ∧
    Kairo.relationshipsClient.all (fun e => e.2.method ≠ "PATCH") = true := by
  refine ⟨by decide, ?_, ?_, by decide⟩ <;> simp [Kairo.relationshipsClient]

/-- C6 amended: the relationships client surface consists of exactly the
five GET reads graph, tone-shifts, neglected, key-contacts and clusters;
it provides neither an attention feed read, nor a contact-detail read,
nor a PATCH contact mutation. -/
theorem relationships_client_surface :
    Kairo.relationshipsClient.map Prod.fst =
      ["graph", "toneShifts", "neglected", "keyContacts", "clusters"] ∧
    Kairo.relationshipsClient.map (fun e => e.2.path) =
      ["/api/relationships/graph", "/api/relationships/tone-shifts",
       "/api/relationships/neglected", "/api/relationships/key-contacts",
       "/api/relationships/clusters"] ∧
    Kairo.relationshipsClient.all (fun e => e.2.method = "GET") = true ∧
    ("attention" ∈ Kairo.relationshipsClient.map Prod.fst) = False ∧
    ("contactDetail" ∈ Kairo.relationshipsClient.map Prod.fst) = False ∧
    ("patchContact" ∈ Kairo.relationshipsClient.map Prod.fst) = False := by
  refine ⟨rfl, rfl, by decide, ?_, ?_, ?_⟩ <;> simp [Kairo.relationshipsClient]

namespace Kairo

/-! ## Frontend: RelationshipsPage dashboard load -/

/-- Models the graph payload shape the page accepts: each of `nodes`,
`links` and `edges` may be absent (JS `undefined`), which the page guards
with `||` fallbacks. -/
structure GraphPayload (ν ε : Type) where
  nodes : Option (List ν)
  links : Option (List ε)
  edges : Option (List ε)

/-- Models a JSON value as the page discriminates it with
`Array.isArray`: either an array of items, or an object whose relevant
list field may be absent. -/
inductive JsListValue (α : Type)
  | arr (xs : List α)
  | obj (field : Option (List α))

/-- Embeds the normalization `Array.isArray(v) ? v : v?.field || []`
applied to each of the four analytic reads. -/
def normalizeJsList {α : Type} : JsListValue α → List α
  | .arr xs => xs
  | .obj (some xs) => xs
  | .obj none => []

/-- State the page holds after the load effect completes. -/
structure RelationshipsState (ν ε α β γ δ : Type) where
  graphNodes : List ν
  graphLinks : List ε
  toneShifts : List α
  neglected : List β
  keyContacts : List γ
  clusters : List δ
  loading : Bool

/-- Embeds the load effect of the relationships page: five reads run
together, each with a `.catch` fallback (`<pre>.catch(() => ({nodes: [],
links: []}))` for the graph, `.catch(() => [])` for the analytics), then
the state setters apply the `||` and `Array.isArray` normalizations and
clear the loading flag. -/
def loadRelationships {ν ε α β γ δ : Type}
    (g : Except Unit (GraphPayload ν ε))
    (ts : Except Unit (JsListValue α)) (neg : Except Unit (JsListValue β))
    (kc : Except Unit (JsListValue γ)) (cl : Except Unit (JsListValue δ)) :
    RelationshipsState ν ε α β γ δ :=
  let g0 : GraphPayload ν ε :=
    match g with
    | .ok v => v
    | .error _ => ⟨some [], some [], none⟩
  { graphNodes := g0.nodes.getD []
    graphLinks := g0.links.getD (g0.edges.getD [])
    toneShifts :=
      match ts with
      | .ok v => normalizeJsList v
      | .error _ => []
    neglected :=
      match neg with
      | .ok v => normalizeJsList v
      | .error _ => []
    keyContacts :=
      match kc with
      | .ok v => normalizeJsList v
      | .error _ => []
    clusters :=
      match cl with
      | .ok v => normalizeJsList v
      | .error _ => []
    loading := false }

end Kairo

/-- C7: in the relationships dashboard load, a rejected read never
disturbs the others — the load always completes with loading cleared,
every rejected read is replaced by an empty result, and every successful
read's payload is delivered (an array result unchanged) whatever the
other four reads did. -/
theorem load_relationships_isolates_failures {ν ε α β γ δ : Type}
    (g : Except Unit (Kairo.GraphPayload ν ε))
    (ts : Except Unit (Kairo.JsListValue α))
    (neg : Except Unit (Kairo.JsListValue β))
    (kc : Except Unit (Kairo.JsListValue γ))
    (cl : Except Unit (Kairo.JsListValue δ)) :
    (Kairo.loadRelationships g ts neg kc cl).loading = false ∧
    (g = .error () → (Kairo.loadRelationships g ts neg kc cl).graphNodes = [] ∧
      (Kairo.loadRelationships g ts neg kc cl).graphLinks = []) ∧
    (∀ v, g = .ok v →
      (Kairo.loadRelationships g ts neg kc cl).graphNodes = v.nodes.getD [] ∧
      (Kairo.loadRelationships g ts neg kc cl).graphLinks =
        v.links.getD (v.edges.getD [])) ∧
    (ts = .error () → (Kairo.loadRelationships g ts neg kc cl).toneShifts = []) ∧
    (∀ xs, ts = .ok (.arr xs) →
      (Kairo.loadRelationships g ts neg kc cl).toneShifts = xs) ∧
    (neg = .error () → (Kairo.loadRelationships g ts neg kc cl).neglected = []) ∧
    (∀ xs, neg = .ok (.arr xs) →
      (Kairo.loadRelationships g ts neg kc cl).neglected = xs) ∧
    (kc = .error () → (Kairo.loadRelationships g ts neg kc cl).keyContacts = []) ∧
    (∀ xs, kc = .ok (.arr xs) →
      (Kairo.loadRelationships g ts neg kc cl).keyContacts = xs) ∧
    (cl = .error () → (Kairo.loadRelationships g ts neg kc cl).clusters = []) ∧
    (∀ xs, cl = .ok (.arr xs) →
      (Kairo.loadRelationships g ts neg kc cl).clusters = xs) := by
  refine ⟨rfl, ?_, ?_, ?_, ?_, ?_, ?_, ?_, ?_, ?_, ?_⟩
  · intro hg
    cases hg
    exact ⟨rfl, rfl⟩
  · intro v hg
    cases hg
    exact ⟨rfl, rfl⟩
  all_goals
    first
      | (intro h; cases h; rfl)
      | (intro xs h; cases h; rfl)

/-- Witness for C7: a load where the graph and key-contacts reads reject
while tone-shifts succeeds with a two-element array delivers empty graph
lists, an empty key-contacts list, and the tone-shift array unchanged. -/
theorem load_relationships_isolates_failures_witness :
    (@Kairo.loadRelationships Nat Nat Nat Nat Nat Nat (.error ())
        (.ok (.arr [7, 8])) (.error ()) (.error ())
        (.ok (.obj none))).graphNodes = [] ∧
    (@Kairo.loadRelationships Nat Nat Nat Nat Nat Nat (.error ())
        (.ok (.arr [7, 8])) (.error ()) (.error ())
        (.ok (.obj none))).toneShifts = [7, 8] := by
  have h := @load_relationships_isolates_failures Nat Nat Nat Nat Nat Nat
    (.error ()) (.ok (.arr [7, 8])) (.error ()) (.error ())
    (.ok (.obj none))
  exact ⟨(h.2.1 rfl).1, h.2.2.2.2.1 [7, 8] rfl⟩

namespace Kairo

/-! ## Backend engine, modelled from the specification -/

/-- Modelled from the spec: the normalized Interaction record of §3 and
§6 (the backend engine source is not included in the repository). -/
structure Interaction where
  from_contact : String
  to_contact : String
  channel : String
  timestamp : ℤ
  sentiment : ℚ
  response_latency : Option ℚ
  raw_ref : String
deriving DecidableEq

/-- Modelled from the spec: the aggregated Edge of §3 — interaction
count, last interaction time, bounded ring buffer of (timestamp,
sentiment) samples, running response-time mean kept as sum and count,
and the cached decayed sentiment stamped with its computation time. -/
structure Edge where
  interaction_count : ℕ
  last_interaction_at : Option ℤ
  sentiment_history : List (ℤ × ℚ)
  resp_count : ℕ
  resp_sum : ℚ
  decayed_cache : Option (ℚ × ℤ)
deriving DecidableEq

/-- Edge state before any interaction has been folded in. -/
def emptyEdge : Edge :=
  { interaction_count := 0
    last_interaction_at := none
    sentiment_history := []
    resp_count := 0
    resp_sum := 0
    decayed_cache := none }

/-- Modelled from the spec: the Contact node of §3, restricted to the
fields the verified components read. -/
structure Contact where
  contact_id : String
  display_name : String
  importance_score : ℚ
  is_vip : Bool
deriving DecidableEq

/-- Modelled from the spec: the per-user Graph Store of §4.1 — contacts,
directed aggregated edges keyed by the (from, to) pair, and the set of
already-folded `raw_ref`s used for idempotent replay safety. -/
structure GraphStore where
  contacts : List Contact
  edges : List ((String × String) × Edge)
  folded_refs : List String
deriving DecidableEq

/-- Graph store with no contacts, edges or folded events. -/
def emptyStore : GraphStore := { contacts := [], edges := [], folded_refs := [] }

/-- Looks an edge up in the store's association list, defaulting to the
empty edge for a pair never seen. -/
def findEdge : List ((String × String) × Edge) → String × String → Edge
  | [], _ => emptyEdge
  | (k, e) :: rest, q => if k = q then e else findEdge rest q

/-- Inserts or replaces the edge stored under a key. -/
def setEdge : List ((String × String) × Edge) → String × String → Edge →
    List ((String × String) × Edge)
  | [], q, e => [(q, e)]
  | (k, e0) :: rest, q, e =>
      if k = q then (q, e) :: rest else (k, e0) :: setEdge rest q e

/-- Modelled from the spec: §4.1 auto-creation of a minimal contact
record when an edge operation references an unknown identity. -/
def ensureContact (s : GraphStore) (cid : String) : GraphStore :=
  if s.contacts.any (fun c => c.contact_id == cid) then s
  else { s with contacts :=
    { contact_id := cid, display_name := cid,
      importance_score := 1/2, is_vip := false } :: s.contacts }

/-- Capacity of the sentiment ring buffer (spec §4.2 default N = 50). -/
def RING_CAP : ℕ := 50

/-- Appends a sample to the bounded ring buffer, dropping the oldest
samples beyond the capacity. -/
def pushSample (h : List (ℤ × ℚ)) (t : ℤ) (v : ℚ) : List (ℤ × ℚ) :=
  let h2 := h ++ [(t, v)]
  h2.drop (h2.length - RING_CAP)

/-- Modelled from the spec: §4.2 folding one interaction into an edge —
increment the count, stamp the last-interaction time, append the
sentiment sample, update the incremental response-time mean, and mark
the cached decayed sentiment stale. -/
def foldEdge (e : Edge) (i : Interaction) : Edge :=
  { interaction_count := e.interaction_count + 1
    last_interaction_at := some i.timestamp
    sentiment_history := pushSample e.sentiment_history i.timestamp i.sentiment
    resp_count :=
      match i.response_latency with
      | some _ => e.resp_count + 1
      | none => e.resp_count
    resp_sum :=
      match i.response_latency with
      | some l => e.resp_sum + l
      | none => e.resp_sum
    decayed_cache := none }

/-- Result of one ingestion: the event was folded, or it was a replay. -/
inductive IngestResult
  | Folded
  | Duplicate
deriving DecidableEq

/-- Modelled from the spec: Interaction Ingest (§4.2) — a no-op
returning Duplicate when the `raw_ref` was already folded; otherwise
both contacts are resolved or auto-created, the directed edge is
updated, and the `raw_ref` is recorded. -/
def ingest (s : GraphStore) (i : Interaction) : GraphStore × IngestResult :=
  if i.raw_ref ∈ s.folded_refs then (s, .Duplicate)
  else
    let s1 := ensureContact (ensureContact s i.from_contact) i.to_contact
    let k := (i.from_contact, i.to_contact)
    let e := findEdge s1.edges k
    ({ s1 with
        edges := setEdge s1.edges k (foldEdge e i)
        folded_refs := i.raw_ref :: s1.folded_refs }, .Folded)

theorem ensureContact_edges (s : GraphStore) (cid : String) :
    (ensureContact s cid).edges = s.edges := by
  unfold ensureContact
  split <;> rfl

theorem ensureContact_folded (s : GraphStore) (cid : String) :
    (ensureContact s cid).folded_refs = s.folded_refs := by
  unfold ensureContact
  split <;> rfl

theorem ingest_of_mem_folded (s : GraphStore) (i : Interaction)
    (hm : i.raw_ref ∈ s.folded_refs) : ingest s i = (s, .Duplicate) := by
  unfold ingest
  rw [if_pos hm]

theorem findEdge_setEdge_self (l : List ((String × String) × Edge))
    (q : String × String) (e : Edge) : findEdge (setEdge l q e) q = e := by
  induction l with
  | nil => simp [setEdge, findEdge]
  | cons kv rest ih =>
      obtain ⟨k, e0⟩ := kv
      by_cases h : k = q
      · simp [setEdge, h, findEdge]
      · simp [setEdge, h, findEdge, ih]

end Kairo

/-- C1: ingestion is idempotent per raw_ref — after a first ingest of an
event not yet folded, ingesting the same event again is a no-op on the
store that returns Duplicate, and the edge's interaction_count after the
replay has increased by exactly 1 over its pre-ingest value, with every
other edge aggregate (indeed the whole store) equal to its state after
the first ingest. -/
theorem ingest_idempotent_per_raw_ref (s : Kairo.GraphStore)
    (i : Kairo.Interaction) (h : i.raw_ref ∉ s.folded_refs) :
    Kairo.ingest (Kairo.ingest s i).1 i = ((Kairo.ingest s i).1, .Duplicate) ∧
    (Kairo.findEdge (Kairo.ingest (Kairo.ingest s i).1 i).1.edges
        (i.from_contact, i.to_contact)).interaction_count =
      (Kairo.findEdge s.edges (i.from_contact, i.to_contact)).interaction_count
        + 1 := by
  have hstep :
      Kairo.ingest s i =
        (let s1 := Kairo.ensureContact (Kairo.ensureContact s i.from_contact)
          i.to_contact
        let k := (i.from_contact, i.to_contact)
        let e := Kairo.findEdge s1.edges k
        ({ s1 with
            edges := Kairo.setEdge s1.edges k (Kairo.foldEdge e i)
            folded_refs := i.raw_ref :: s1.folded_refs }, .Folded)) := by
    unfold Kairo.ingest
    rw [if_neg h]
  have hmem : i.raw_ref ∈ (Kairo.ingest s i).1.folded_refs := by
    rw [hstep]
    exact List.mem_cons_self _ _
  have hdup : Kairo.ingest (Kairo.ingest s i).1 i =
      ((Kairo.ingest s i).1, .Duplicate) :=
    Kairo.ingest_of_mem_folded _ i hmem
  refine ⟨hdup, ?_⟩
  rw [hdup]
  rw [hstep]
  simp only
  rw [Kairo.findEdge_setEdge_self]
  rw [Kairo.ensureContact_edges, Kairo.ensureContact_edges]
  rfl

/-- Witness for C1: ingesting one concrete interaction twice into the
empty store folds once and replays as a Duplicate no-op, with the edge
count rising from 0 to exactly 1. -/
theorem ingest_idempotent_per_raw_ref_witness :
    ("r1" ∉ Kairo.emptyStore.folded_refs) ∧
    (Kairo.ingest
        (Kairo.ingest Kairo.emptyStore
          (Kairo.Interaction.mk "self" "ada" "email" 100 (1/2) none "r1")).1
        (Kairo.Interaction.mk "self" "ada" "email" 100 (1/2) none "r1") =
      ((Kairo.ingest Kairo.emptyStore
          (Kairo.Interaction.mk "self" "ada" "email" 100 (1/2) none "r1")).1,
        .Duplicate)) ∧
    (Kairo.findEdge
        (Kairo.ingest
          (Kairo.ingest Kairo.emptyStore
            (Kairo.Interaction.mk "self" "ada" "email" 100 (1/2) none "r1")).1
          (Kairo.Interaction.mk "self" "ada" "email" 100 (1/2) none "r1")).1.edges
        ("self", "ada")).interaction_count = 1 := by
  have h := ingest_idempotent_per_raw_ref Kairo.emptyStore
    (Kairo.Interaction.mk "self" "ada" "email" 100 (1/2) none "r1")
    (by simp [Kairo.emptyStore])
  exact ⟨by simp [Kairo.emptyStore], h.1, h.2⟩

namespace Kairo

/-! ## Decay Engine (spec §4.3) -/

/-- Clamps a value to the sentiment scale [-1, 1]. -/
def clamp (x : ℚ) : ℚ := max (-1) (min 1 x)

/-- Modelled from the spec: the Decay Engine (§4.3), whose source is not
in the repository — `decayed_sentiment` is the weight-averaged ring
buffer, clamped to [-1, 1], with zero samples mapped to the neutral
score 0 paired with a distinct no_data flag (the Bool component).  The
exponential family weight(sample) = exp(-lambda * dt) is abstracted as
an arbitrary weight function of the sample age, covering every choice of
decay parameters. -/
def decayedSentiment (w : ℤ → ℚ) (samples : List (ℤ × ℚ)) (now : ℤ) :
    ℚ × Bool :=
  match samples with
  | [] => (0, true)
  | _ :: _ =>
    let totW := (samples.map (fun p => w (now - p.1))).sum
    let totWS := (samples.map (fun p => w (now - p.1) * p.2)).sum
    (clamp (totWS / totW), false)

/-- Modelled from the spec: §4.3 reads the edge's ring-buffer snapshot —
the decayed sentiment of an edge is a function of its sentiment history
and "now" only. -/
def decayedSentimentEdge (w : ℤ → ℚ) (e : Edge) (now : ℤ) : ℚ × Bool :=
  decayedSentiment w e.sentiment_history now

theorem clamp_mem_Icc (x : ℚ) : -1 ≤ clamp x ∧ clamp x ≤ 1 := by
  unfold clamp
  refine ⟨le_max_left _ _, max_le (by norm_num) (min_le_left _ _)⟩

end Kairo

/-- C2: for every weight function (hence every choice of decay
parameters), every sample sequence with sentiments in [-1,1] and every
"now", the decayed sentiment lies in [-1,1]; the empty-sample case
returns the neutral score 0 with the no_data flag set, and the flag is
clear whenever samples exist. -/
theorem decayed_sentiment_clamped (w : ℤ → ℚ) (samples : List (ℤ × ℚ))
    (now : ℤ) (h : ∀ p ∈ samples, -1 ≤ p.2 ∧ p.2 ≤ 1) :
    (-1 ≤ (Kairo.decayedSentiment w samples now).1 ∧
      (Kairo.decayedSentiment w samples now).1 ≤ 1) ∧
    Kairo.decayedSentiment w [] now = (0, true) ∧
    (samples ≠ [] → (Kairo.decayedSentiment w samples now).2 = false) := by
  refine ⟨?_, rfl, ?_⟩
  · cases samples with
    | nil =>
        exact ⟨by norm_num [Kairo.decayedSentiment],
          by norm_num [Kairo.decayedSentiment]⟩
    | cons p rest => exact Kairo.clamp_mem_Icc _
  · intro hne
    cases samples with
    | nil => exact absurd rfl hne
    | cons p rest => rfl

/-- Witness for C2: evaluates the decayed sentiment at a concrete
two-sample history with unit weights. -/
theorem decayed_sentiment_clamped_witness :
    (∀ p ∈ [((0 : ℤ), (1 : ℚ)/2), ((5 : ℤ), -(3 : ℚ)/4)],
      -1 ≤ p.2 ∧ p.2 ≤ 1) ∧
    (-1 ≤ (Kairo.decayedSentiment (fun _ => 1)
        [((0 : ℤ), (1 : ℚ)/2), ((5 : ℤ), -(3 : ℚ)/4)] 10).1 ∧
      (Kairo.decayedSentiment (fun _ => 1)
        [((0 : ℤ), (1 : ℚ)/2), ((5 : ℤ), -(3 : ℚ)/4)] 10).1 ≤ 1) ∧
    ([((0 : ℤ), (1 : ℚ)/2), ((5 : ℤ), -(3 : ℚ)/4)] ≠
        ([] : List (ℤ × ℚ)) →
      (Kairo.decayedSentiment (fun _ => 1)
        [((0 : ℤ), (1 : ℚ)/2), ((5 : ℤ), -(3 : ℚ)/4)] 10).2 = false) := by
  have h := decayed_sentiment_clamped (fun _ => 1)
    [((0 : ℤ), (1 : ℚ)/2), ((5 : ℤ), -(3 : ℚ)/4)] 10 (by norm_num)
  exact ⟨by norm_num, h.1, h.2.2⟩

/-- C3: the decayed sentiment of an edge is a pure, deterministic
function of the snapshot's ring buffer and "now": it is equal across
runs, and any two edge records agreeing on their sentiment history —
whatever their cached values, counts or other mutable fields — yield
identical output at every time. -/
theorem decayed_sentiment_deterministic (w : ℤ → ℚ) (e1 e2 : Kairo.Edge)
    (now : ℤ) (h : e1.sentiment_history = e2.sentiment_history) :
    Kairo.decayedSentimentEdge w e1 now = Kairo.decayedSentimentEdge w e1 now ∧
    Kairo.decayedSentimentEdge w e1 now = Kairo.decayedSentimentEdge w e2 now := by
  unfold Kairo.decayedSentimentEdge
  rw [h]
  exact ⟨rfl, rfl⟩

/-- Witness for C3: two edge records share a one-sample history but
differ in interaction count and cached decayed sentiment; their decayed
sentiments coincide. -/
theorem decayed_sentiment_deterministic_witness :
    Kairo.decayedSentimentEdge (fun _ => 1)
        (Kairo.Edge.mk 3 (some 9) [((0 : ℤ), (1 : ℚ)/2)] 0 0
          (some (9/10, 4))) 10 =
      Kairo.decayedSentimentEdge (fun _ => 1)
        (Kairo.Edge.mk 7 none [((0 : ℤ), (1 : ℚ)/2)] 2 5 none) 10 :=
  (decayed_sentiment_deterministic (fun _ => 1)
    (Kairo.Edge.mk 3 (some 9) [((0 : ℤ), (1 : ℚ)/2)] 0 0 (some (9/10, 4)))
    (Kairo.Edge.mk 7 none [((0 : ℤ), (1 : ℚ)/2)] 2 5 none) 10 rfl).2

namespace Kairo

/-! ## Tone-Shift Detector (spec §4.4) -/

/-- Modelled from the spec: §4.4 window configuration — the 7/35-day
boundaries and MIN_SAMPLES are tunable configuration, so the detector is
parametrized by the recent-window length, the near and far baseline
offsets (all in seconds before "now"), the minimum sample count and the
delta threshold. -/
structure ToneConfig where
  min_samples : ℕ
  recent_len : ℤ
  baseline_near : ℤ
  baseline_far : ℤ
  threshold : ℚ
deriving DecidableEq

/-- Spec defaults: MIN_SAMPLES 3, recent window 7 days, baseline window
8 to 35 days prior, threshold 0.3. -/
def defaultToneConfig : ToneConfig :=
  { min_samples := 3
    recent_len := 7 * 86400
    baseline_near := 8 * 86400
    baseline_far := 35 * 86400
    threshold := 3/10 }

/-- Outcome of the tone-shift detector for one edge. -/
inductive ToneShiftResult
  | insufficient_data
  | no_shift
  | declining (delta : ℚ)
  | improving (delta : ℚ)
deriving DecidableEq

/-- Samples falling in the recent window [now - recent_len, now]. -/
def recentSamples (cfg : ToneConfig) (samples : List (ℤ × ℚ)) (now : ℤ) :
    List (ℤ × ℚ) :=
  samples.filter (fun p => now - cfg.recent_len ≤ p.1 ∧ p.1 ≤ now)

/-- Samples falling in the baseline window
[now - baseline_far, now - baseline_near]. -/
def baselineSamples (cfg : ToneConfig) (samples : List (ℤ × ℚ)) (now : ℤ) :
    List (ℤ × ℚ) :=
  samples.filter
    (fun p => now - cfg.baseline_far ≤ p.1 ∧ p.1 ≤ now - cfg.baseline_near)

/-- Mean of a list of rationals (0 for the empty list). -/
def meanQ (xs : List ℚ) : ℚ := xs.sum / xs.length

/-- Modelled from the spec: the Tone-Shift Detector (§4.4), whose source
is not in the repository — it reports a shift only when both windows
hold at least `min_samples` samples and the two windows are disjoint
intervals; otherwise it returns insufficient_data rather than guessing.
The delta is recent mean minus baseline mean; at or above the threshold
in magnitude the direction is declining for negative delta, improving
otherwise. -/
def toneShift (cfg : ToneConfig) (samples : List (ℤ × ℚ)) (now : ℤ) :
    ToneShiftResult :=
  let recent := recentSamples cfg samples now
  let baseline := baselineSamples cfg samples now
  if recent.length < cfg.min_samples ∨ baseline.length < cfg.min_samples ∨
      ¬(cfg.recent_len < cfg.baseline_near) then
    .insufficient_data
  else
    let delta := meanQ (recent.map Prod.snd) - meanQ (baseline.map Prod.snd)
    if cfg.threshold ≤ |delta| then
      if delta < 0 then .declining delta else .improving delta
    else .no_shift

end Kairo

/-- C4: the tone-shift detector never reports a shift from insufficient
or overlapping data — whenever either window holds fewer than
min_samples samples, or the two windows are not disjoint, the result is
insufficient_data. -/
theorem tone_shift_requires_sufficient_disjoint (cfg : Kairo.ToneConfig)
    (samples : List (ℤ × ℚ)) (now : ℤ)
    (h : (Kairo.recentSamples cfg samples now).length < cfg.min_samples ∨
      (Kairo.baselineSamples cfg samples now).length < cfg.min_samples ∨
      ¬(cfg.recent_len < cfg.baseline_near)) :
    Kairo.toneShift cfg samples now = .insufficient_data := by
  unfold Kairo.toneShift
  rw [if_pos h]

/-- Witness for C4: on an edge with a single recent sample the default
configuration reports insufficient_data. -/
theorem tone_shift_requires_sufficient_disjoint_witness :
    Kairo.toneShift Kairo.defaultToneConfig [((0 : ℤ), (1 : ℚ)/2)] 0 =
      .insufficient_data :=
  tone_shift_requires_sufficient_disjoint Kairo.defaultToneConfig
    [((0 : ℤ), (1 : ℚ)/2)] 0 (by
      left
      simp [Kairo.recentSamples, Kairo.defaultToneConfig])

namespace Kairo

/-! ## Attention Aggregator (spec §4.8) -/

/-- Kind of an attention item. -/
inductive AttentionType
  | overdue_commitment
  | neglected_contact
  | tone_decline
deriving DecidableEq

/-- Modelled from the spec: the ephemeral AttentionItem of §3, with the
urgency/recency score used as the secondary ranking key. -/
structure AttentionItem where
  type : AttentionType
  contact_id : String
  is_vip : Bool
  urgency : ℚ
  message : String
  deadline : Option ℤ
deriving DecidableEq

/-- Severity tier of §4.8, lower rank first: overdue_commitment, then
neglected_contact with is_vip, then tone_decline, then neglected_contact
without VIP. -/
def tier (it : AttentionItem) : ℕ :=
  match it.type with
  | .overdue_commitment => 0
  | .neglected_contact => if it.is_vip then 1 else 3
  | .tone_decline => 2

/-- Deduplication key: the (type, contact_id) pair. -/
def itemKey (it : AttentionItem) : AttentionType × String :=
  (it.type, it.contact_id)

/-- Ranking preorder of §4.8: primary key the severity tier, secondary
key the urgency within a tier (more urgent first). -/
def attnLE (a b : AttentionItem) : Prop :=
  tier a < tier b ∨ (tier a = tier b ∧ b.urgency ≤ a.urgency)

instance : DecidableRel attnLE := fun a b =>
  inferInstanceAs
    (Decidable (tier a < tier b ∨ (tier a = tier b ∧ b.urgency ≤ a.urgency)))

instance : IsTotal AttentionItem attnLE :=
  ⟨fun a b => by
    unfold attnLE
    rcases Nat.lt_trichotomy (tier a) (tier b) with h | h | h
    · exact Or.inl (Or.inl h)
    · rcases le_total b.urgency a.urgency with hu | hu
      · exact Or.inl (Or.inr ⟨h, hu⟩)
      · exact Or.inr (Or.inr ⟨h.symm, hu⟩)
    · exact Or.inr (Or.inl h)⟩

instance : IsTrans AttentionItem attnLE :=
  ⟨fun a b c hab hbc => by
    unfold attnLE at hab hbc ⊢
    rcases hab with h1 | ⟨h1, hu1⟩
    · rcases hbc with h2 | ⟨h2, hu2⟩
      · exact Or.inl (h1.trans h2)
      · exact Or.inl (lt_of_lt_of_le h1 (le_of_eq h2))
    · rcases hbc with h2 | ⟨h2, hu2⟩
      · exact Or.inl (lt_of_le_of_lt (le_of_eq h1) h2)
      · exact Or.inr ⟨h1.trans h2, le_trans hu2 hu1⟩⟩

/-- Modelled from the spec: §4.8 deduplication — of several items with
the same (type, contact_id) key the first survives, tracked by the set
of keys already seen. -/
def dedupeAttn (seen : List (AttentionType × String)) :
    List AttentionItem → List AttentionItem
  | [] => []
  | x :: xs =>
      if itemKey x ∈ seen then dedupeAttn seen xs
      else x :: dedupeAttn (itemKey x :: seen) xs

/-- Modelled from the spec: the Attention Aggregator (§4.8), whose
source is not in the repository — deduplicate by (type, contact_id),
then rank by severity tier with urgency as the tie-break. -/
def aggregateAttention (items : List AttentionItem) : List AttentionItem :=
  (dedupeAttn [] items).insertionSort attnLE

theorem dedupeAttn_key_pairwise (l : List AttentionItem) :
    ∀ seen, ((dedupeAttn seen l).Pairwise fun a b => itemKey a ≠ itemKey b) ∧
      ∀ x ∈ dedupeAttn seen l, itemKey x ∉ seen := by
  induction l with
  | nil =>
      intro seen
      exact ⟨List.Pairwise.nil, by simp [dedupeAttn]⟩
  | cons x xs ih =>
      intro seen
      by_cases h : itemKey x ∈ seen
      · simp only [dedupeAttn, if_pos h]
        exact ih seen
      · simp only [dedupeAttn, if_neg h]
        refine ⟨List.Pairwise.cons ?_ (ih (itemKey x :: seen)).1, ?_⟩
        · intro y hy hk
          exact (ih (itemKey x :: seen)).2 y hy
            (hk ▸ List.mem_cons_self _ _)
        · intro y hy
          rcases List.mem_cons.mp hy with rfl | hy2
          · exact h
          · intro hys
            exact (ih (itemKey x :: seen)).2 y hy2 (List.mem_cons_of_mem _ hys)

/-- Concrete overdue-commitment item for the §8 aggregator scenario. -/
def overdueDemo : AttentionItem :=
  { type := .overdue_commitment
    contact_id := "ada"
    is_vip := true
    urgency := 1
    message := "Send the contract"
    deadline := some 100 }

/-- Concrete VIP-neglect item for the §8 aggregator scenario, more
urgent than the commitment yet in a lower severity tier. -/
def vipNeglectDemo : AttentionItem :=
  { type := .neglected_contact
    contact_id := "ada"
    is_vip := true
    urgency := 2
    message := "No contact in 12 days"
    deadline := none }

end Kairo

/-- C5: the attention feed contains at most one item per
(type, contact_id) pair and is sorted by severity tier —
overdue_commitment before VIP neglect before tone decline before
non-VIP neglect — with urgency as the within-tier tie-break; on the
concrete scenario of one overdue commitment and one VIP-neglect item
for the same contact, both appear with the commitment first. -/
theorem attention_feed_dedup_ranked (items : List Kairo.AttentionItem) :
    ((Kairo.aggregateAttention items).Pairwise
      fun a b => Kairo.itemKey a ≠ Kairo.itemKey b) ∧
    (Kairo.aggregateAttention items).Sorted Kairo.attnLE ∧
    Kairo.aggregateAttention [Kairo.vipNeglectDemo, Kairo.overdueDemo] =
      [Kairo.overdueDemo, Kairo.vipNeglectDemo] := by
  refine ⟨?_, List.sorted_insertionSort Kairo.attnLE _, ?_⟩
  · have hperm := List.perm_insertionSort Kairo.attnLE
      (Kairo.dedupeAttn [] items)
    have hpw := (Kairo.dedupeAttn_key_pairwise items []).1
    exact (hperm.pairwise_iff (fun hab => Ne.symm hab)).mpr hpw
  · decide
